import Mathlib

/-!
Verification of the rogi-paksh crop-disease detection pipeline.

This file gives a shallow embedding, in Lean 4, of the algorithmic core of
the repository:

* `supabase/functions/detect-disease/index.ts` — rate limiting
  (`checkRateLimit`), the retry/timeout orchestration loop inside `serve`,
  the response validator (`parseAndValidateResponse`) and the fallback
  synthesizer (`createFallbackResponse`);
* `src/lib/imageUtils.ts` — the quality gate (`analyzeImageQuality`
  scoring), the compression quality loop (`compressImage`), the sharpness
  metric (`calculateSharpness`) and the sharpening convolution
  (`applySharpenFilter`).

JavaScript numbers are modelled exactly: integer-valued quantities as
`Nat`/`Int`, fractional quantities (quality factors, luma weights, kernel
weights) as `Rat`; `Math.round` is floor of `x + 1/2`, which agrees with
JS `Math.round` on all inputs, including negative half-integers.
The code stores the normalized confidence as a decimal string
(`String(confidence)`); since that conversion is injective we keep the
numeric value.
-/

namespace DetectDisease

/-- Configuration constants of `detect-disease/index.ts` (lines 14-26). -/
def RATE_LIMIT : Nat := 15

def RATE_WINDOW_MS : Nat := 60000

def MAX_RETRIES : Nat := 2

def RETRY_DELAY_MS : Nat := 1500

def REQUEST_TIMEOUT_MS : Nat := 45000

def CONFIDENCE_MEDIUM : Int := 70

/-- A multilingual text block (`english`/`hindi`/`kannada`), as produced by
the classifier or by the validator defaults.  The TypeScript code only
checks that such a field is a non-null object before keeping it; we model
kept objects as complete records, which is all the claims need. -/
structure Multilingual where
  english : String
  hindi : String
  kannada : String
  deriving Repr, DecidableEq

/-- The record obtained from `JSON.parse` of the classifier text, restricted
to the fields `parseAndValidateResponse` inspects.  `none` models a field
that is absent or fails the code guard (falsy for the string fields,
not an object for the multilingual fields, not a boolean
for `expert_consultation`, `parseInt` returning `NaN` for `confidence`). -/
structure RawDetection where
  crop : Option String
  issue : Option String
  category : Option String
  severity : Option String
  confidence : Option Int
  description : Option Multilingual
  solutions : Option Multilingual
  tts : Option Multilingual
  preventive_tips : Option String
  action_urgency : Option String
  expert_consultation : Option Bool
  deriving Repr, DecidableEq

/-- The normalized detection result returned by the validator. -/
structure ValidatedDetection where
  crop : String
  issue : String
  category : String
  severity : String
  confidence : Int
  description : Multilingual
  solutions : Multilingual
  tts : Multilingual
  preventive_tips : String
  action_urgency : String
  expert_consultation : Bool
  timestamp : String
  deriving Repr, DecidableEq

/-- Model of `parseAndValidateResponse` (detect-disease/index.ts lines 185-246),
after the `JSON.parse` step: field backfilling, confidence clamping, and
the `expert_consultation` default.  The defaults and their order follow
the source line by line; the tts default is built from the already
defaulted `crop` and `issue`, as in the source (the mutations on `parsed`
happen in that order). -/
def parseAndValidateResponse (raw : RawDetection) (timestamp : String) :
    ValidatedDetection :=
  let crop := raw.crop.getD "Unknown Crop"
  let issue := raw.issue.getD "Unable to Determine"
  let category := raw.category.getD "disease"
  let severity := raw.severity.getD "Medium"
  let confidence0 : Int :=
    match raw.confidence with
    | none => 50
    | some c => if c < 0 then 50 else c
  let confidence : Int := if confidence0 > 99 then 99 else confidence0
  let description := raw.description.getD
    { english := "Analysis complete. See treatment recommendations below."
      hindi := "विश्लेषण पूर्ण। नीचे उपचार देखें।"
      kannada := "ವಿಶ್ಲೇಷಣೆ ಪೂರ್ಣ. ಕೆಳಗೆ ಚಿಕಿತ್ಸೆ ನೋಡಿ." }
  let solutions := raw.solutions.getD
    { english := "Consult a local agricultural officer for specific treatment recommendations."
      hindi := "विशिष्ट उपचार के लिए स्थानीय कृषि अधिकारी से संपर्क करें।"
      kannada := "ನಿರ್ದಿಷ್ಟ ಚಿಕಿತ್ಸೆಗಾಗಿ ಸ್ಥಳೀಯ ಕೃಷಿ ಅಧಿಕಾರಿಯನ್ನು ಸಂಪರ್ಕಿಸಿ." }
  let tts := raw.tts.getD
    { english := s!"Your {crop} has {issue}. Please check treatment recommendations."
      hindi := s!"आपके {crop} में {issue} है। कृपया उपचार देखें।"
      kannada := s!"ನಿಮ್ಮ {crop} ಗೆ {issue} ಇದೆ. ದಯವಿಟ್ಟು ಚಿಕಿತ್ಸೆ ನೋಡಿ." }
  { crop := crop
    issue := issue
    category := category
    severity := severity
    confidence := confidence
    description := description
    solutions := solutions
    tts := tts
    preventive_tips := raw.preventive_tips.getD
      "Practice crop rotation, maintain field hygiene, and use disease-resistant varieties."
    action_urgency := raw.action_urgency.getD "within_week"
    expert_consultation :=
      raw.expert_consultation.getD (decide (confidence < CONFIDENCE_MEDIUM))
    timestamp := timestamp }

/-- Model of `createFallbackResponse` (detect-disease/index.ts lines 248-275). -/
def createFallbackResponse (reason : String) (timestamp : String) :
    ValidatedDetection :=
  { crop := "Unknown"
    issue := "Detection Incomplete"
    category := "unknown"
    severity := "Unknown"
    confidence := 0
    description :=
      { english := s!"Unable to complete analysis: {reason}. Please try again with a clearer image of the affected plant part."
        hindi := s!"विश्लेषण पूरा नहीं हो सका: {reason}। कृपया प्रभावित पौधे के भाग की स्पष्ट तस्वीर के साथ पुनः प्रयास करें।"
        kannada := s!"ವಿಶ್ಲೇಷಣೆ ಪೂರ್ಣಗೊಳಿಸಲು ಸಾಧ್ಯವಾಗಲಿಲ್ಲ: {reason}. ದಯವಿಟ್ಟು ಪ್ರಭಾವಿತ ಸಸ್ಯದ ಭಾಗದ ಸ್ಪಷ್ಟ ಚಿತ್ರದೊಂದಿಗೆ ಮತ್ತೆ ಪ್ರಯತ್ನಿಸಿ." }
    solutions :=
      { english := "📷 Tips for better results: 1) Use natural daylight 2) Focus on affected area 3) Include both healthy and affected parts"
        hindi := "📷 बेहतर परिणाम के लिए: 1) प्राकृतिक रोशनी में 2) प्रभावित क्षेत्र पर फोकस 3) स्वस्थ और प्रभावित दोनों भाग शामिल करें"
        kannada := "📷 ಉತ್ತಮ ಫಲಿತಾಂಶಕ್ಕಾಗಿ: 1) ನೈಸರ್ಗಿಕ ಬೆಳಕಿನಲ್ಲಿ 2) ಪ್ರಭಾವಿತ ಪ್ರದೇಶದ ಮೇಲೆ ಕೇಂದ್ರೀಕರಿಸಿ 3) ಆರೋಗ್ಯಕರ ಮತ್ತು ಪ್ರಭಾವಿತ ಭಾಗಗಳನ್ನು ಸೇರಿಸಿ" }
    tts :=
      { english := "Could not detect disease. Please try with a clearer photo."
        hindi := "रोग का पता नहीं चला। कृपया स्पष्ट फोटो के साथ प्रयास करें।"
        kannada := "ರೋಗ ಪತ್ತೆಯಾಗಲಿಲ್ಲ. ದಯವಿಟ್ಟು ಸ್ಪಷ್ಟ ಫೋಟೋದೊಂದಿಗೆ ಪ್ರಯತ್ನಿಸಿ." }
    preventive_tips := "Ensure good image quality for accurate detection."
    action_urgency := "routine"
    expert_consultation := true
    timestamp := timestamp }

/-- The parse-or-fallback step of `serve` (detect-disease/index.ts lines
427-436): the validator is run inside a try/catch, and any parse failure
is replaced by the fallback result.  An unparseable classifier text is
modelled as `none`. -/
def validateOrFallback (parsed : Option RawDetection) (timestamp : String) :
    ValidatedDetection :=
  match parsed with
  | some raw => parseAndValidateResponse raw timestamp
  | none => createFallbackResponse "Could not parse AI response" timestamp

/-- One per-caller record of the rate-limit map
(`rateLimitMap.get(clientIP)`). -/
structure RateLimitRecord where
  count : Nat
  resetTime : Nat
  deriving Repr, DecidableEq

/-- Model of `checkRateLimit` (detect-disease/index.ts lines 28-43), restricted to a
single caller key: given the current time and the stored record for that
key (`none` when the map has no entry), return the admission decision and
the updated record. -/
def checkRateLimit (now : Nat) (record : Option RateLimitRecord) :
    Bool × Option RateLimitRecord :=
  match record with
  | none => (true, some { count := 1, resetTime := now + RATE_WINDOW_MS })
  | some r =>
    if now > r.resetTime then
      (true, some { count := 1, resetTime := now + RATE_WINDOW_MS })
    else if r.count ≥ RATE_LIMIT then
      (false, some r)
    else
      (true, some { r with count := r.count + 1 })

/-- Run `checkRateLimit` on a sequence of request times for one caller key,
collecting the admission decisions and the final stored record. -/
def runChecks (times : List Nat) (record : Option RateLimitRecord) :
    List Bool × Option RateLimitRecord :=
  match times with
  | [] => ([], record)
  | t :: ts =>
    let step := checkRateLimit t record
    let rest := runChecks ts step.2
    (step.1 :: rest.1, rest.2)

/-! ### The retry loop of `serve` (detect-disease/index.ts lines 353-414)

`callVisionAI` performs one HTTPS call, aborted after `timeoutMs` via an
`AbortController` (lines 141-183); one call attempt therefore either
returns a response with an HTTP status, throws on timeout, or throws a
transport error.  The wall-clock cancellation itself is outside the
embedding; what we model is that every attempt is issued with the
45-second bound and that a timed-out attempt surfaces as `AbortError`. -/

/-- The observable outcome of one `callVisionAI` attempt. -/
inductive AttemptResult where
  /-- The field `response.ok` was true. -/
  | success
  /-- A response arrived with a non-ok HTTP status. -/
  | httpStatus (status : Nat)
  /-- The fetch threw `AbortError` (the 45s cancellation fired). -/
  | timeout
  /-- The fetch threw some other transport error with this message. -/
  | transportError (msg : String)
  deriving Repr, DecidableEq

/-- What the `serve` handler does after the retry loop settles, as far as
the classification call is concerned. -/
inductive ServeOutcome where
  /-- An ok response was obtained; `serve` goes on to parse the body. -/
  | ok
  /-- An error JSON was returned with this HTTP status and error code. -/
  | errorResponse (status : Nat) (errorCode : String)
  /-- The result of `createFallbackResponse reason` was returned with HTTP status 200. -/
  | fallback (reason : String)
  deriving Repr, DecidableEq

/-- One loop iteration as issued: the backoff delay awaited before the
attempt and the timeout bound passed to `callVisionAI`. -/
structure AttemptTrace where
  delayMs : Nat
  timeoutMs : Nat
  deriving Repr, DecidableEq

/-- The retry loop of `serve`, lines 353-414.  `attempts n` is the outcome
of the call made on loop iteration `n`; `remaining` is the number of loop
iterations still permitted (`MAX_RETRIES + 1 - attempt`); `lastError` is
the `lastError` variable (`none` initially).  Returns the trace of issued
attempts and the settled outcome.  When the loop exhausts its iterations,
lines 408-413 return the fallback built from
`lastError?.message || "Network error"` with HTTP 200; a 429 on the final
permitted attempt returns the `AI_RATE_LIMITED` error (lines 368-380); a
402 returns `SERVICE_UNAVAILABLE` immediately (lines 382-391). -/
def retryLoopAux (attempts : Nat → AttemptResult) :
    (remaining attempt : Nat) → (lastError : Option String) →
    List AttemptTrace × ServeOutcome
  | 0, _, lastError => ([], .fallback (lastError.getD "Network error"))
  | remaining + 1, attempt, lastError =>
    let tr : AttemptTrace :=
      { delayMs := if attempt > 0 then RETRY_DELAY_MS * attempt else 0
        timeoutMs := REQUEST_TIMEOUT_MS }
    match attempts attempt with
    | .success => ([tr], .ok)
    | .httpStatus s =>
      if s = 429 then
        if attempt = MAX_RETRIES then
          ([tr], .errorResponse 429 "AI_RATE_LIMITED")
        else
          let rest := retryLoopAux attempts remaining (attempt + 1) lastError
          (tr :: rest.1, rest.2)
      else if s = 402 then
        ([tr], .errorResponse 503 "SERVICE_UNAVAILABLE")
      else
        let rest := retryLoopAux attempts remaining (attempt + 1)
          (some s!"AI gateway error: {s}")
        (tr :: rest.1, rest.2)
    | .timeout =>
      let rest := retryLoopAux attempts remaining (attempt + 1)
        (some "Request timed out")
      (tr :: rest.1, rest.2)
    | .transportError msg =>
      let rest := retryLoopAux attempts remaining (attempt + 1) (some msg)
      (tr :: rest.1, rest.2)

/-- The full retry loop: `for (let attempt = 0; attempt <= MAX_RETRIES;
attempt++)` starting with no response and no recorded error. -/
def retryLoop (attempts : Nat → AttemptResult) :
    List AttemptTrace × ServeOutcome :=
  retryLoopAux attempts (MAX_RETRIES + 1) 0 none

/-- A classifier response with confidence 55 that explicitly sets
`expert_consultation: false`, used to exercise the validator. -/
def rawLowConfidence : RawDetection :=
  { crop := some "Tomato"
    issue := some "Early Blight"
    category := some "disease"
    severity := some "Low"
    confidence := some 55
    description := none
    solutions := none
    tts := none
    preventive_tips := none
    action_urgency := none
    expert_consultation := some false }

/-- A classifier response with confidence 55 and no usable
`expert_consultation` field. -/
def rawLowConfidenceNoFlag : RawDetection :=
  { rawLowConfidence with expert_consultation := none }

/-- Whether a settled outcome is the degraded fallback (returned with HTTP
status 200 by lines 410-413). -/
def ServeOutcome.isFallback : ServeOutcome → Bool
  | .fallback _ => true
  | _ => false

/-- An attempt outcome in the retryable class other than upstream 429 and
other than the fatal 402: a timeout, a transport error, or a non-ok HTTP
status different from 429 and 402. -/
def retryableOther (a : AttemptResult) : Prop :=
  a = .timeout ∨ (∃ m, a = .transportError m)
    ∨ ∃ s, a = .httpStatus s ∧ s ≠ 429 ∧ s ≠ 402

end DetectDisease

namespace ImageUtils

/-- JavaScript `Math.round`: floor of `x + 1/2` (this agrees with JS, which
rounds half-integers toward positive infinity). -/
def jsRound (q : ℚ) : ℤ := ⌊q + 1/2⌋

/-- Thresholds from `QUALITY_THRESHOLDS` (imageUtils.ts lines 31-37). -/
def MIN_BRIGHTNESS : ℚ := 30

def MAX_BRIGHTNESS : ℚ := 220

def MIN_CONTRAST : ℚ := 20

def MIN_SHARPNESS : ℚ := 15

def MIN_QUALITY_SCORE : ℤ := 40

/-- The `ImageQualityReport` record (imageUtils.ts lines 13-21). -/
structure ImageQualityReport where
  isValid : Bool
  score : ℤ
  issues : List String
  recommendations : List String
  brightness : ℤ
  contrast : ℤ
  sharpness : ℤ
  deriving Repr, DecidableEq

/-- The scoring stage of `analyzeImageQuality` (imageUtils.ts lines
148-194), as a function of the three computed metrics and the original
image dimensions.  The source mutates `score` and pushes onto `issues` /
`recommendations` through an if / else-if chain for brightness and
independent ifs for the remaining rules; the sequential mutations are
rendered as sequential lets and list concatenations in the same order. -/
def analyzeImageQualityCore (brightness contrast sharpness : ℚ)
    (imgWidth imgHeight : Nat) : ImageQualityReport :=
  let score1 : ℤ :=
    if brightness < MIN_BRIGHTNESS then 100 - 25
    else if brightness > MAX_BRIGHTNESS then 100 - 20
    else 100
  let score2 : ℤ := if contrast < MIN_CONTRAST then score1 - 20 else score1
  let score3 : ℤ := if sharpness < MIN_SHARPNESS then score2 - 30 else score2
  let score4 : ℤ :=
    if imgWidth < 400 ∨ imgHeight < 400 then score3 - 15 else score3
  let score : ℤ := max 0 (min 100 score4)
  { isValid := decide (score ≥ MIN_QUALITY_SCORE)
    score := score
    issues :=
      (if brightness < MIN_BRIGHTNESS then ["Image is too dark"]
       else if brightness > MAX_BRIGHTNESS then ["Image is overexposed"]
       else [])
      ++ (if contrast < MIN_CONTRAST then
            ["Low contrast - details may be hard to detect"] else [])
      ++ (if sharpness < MIN_SHARPNESS then ["Image appears blurry"] else [])
      ++ (if imgWidth < 400 ∨ imgHeight < 400 then ["Low resolution"] else [])
    recommendations :=
      (if brightness < MIN_BRIGHTNESS then ["Move to a well-lit area or use flash"]
       else if brightness > MAX_BRIGHTNESS then ["Reduce lighting or avoid direct sunlight"]
       else [])
      ++ (if contrast < MIN_CONTRAST then
            ["Ensure affected area is clearly visible"] else [])
      ++ (if sharpness < MIN_SHARPNESS then
            ["Hold camera steady and tap to focus"] else [])
      ++ (if imgWidth < 400 ∨ imgHeight < 400 then
            ["Move closer to the plant or use higher resolution"] else [])
    brightness := jsRound brightness
    contrast := jsRound contrast
    sharpness := jsRound sharpness }

/-- The quality-reduction loop of `compressImage` (imageUtils.ts lines
89-101).  `encLen q` is the length of the JPEG data URL encoded at quality `q`
— the JPEG encoder is the opaque external capability, so it is a
parameter; `maxSizeBytes` is `opts.maxSizeKB * 1024 * 4 / 3` (line 93).
`fuel` is `MAX_ITERATIONS - iterations`; the loop guard
`result.length > maxSizeBytes && quality > 0.4 && iterations < MAX_ITERATIONS`
is re-checked before every iteration, and each iteration lowers `quality`
by `0.1` and re-encodes.  Returns the final quality together with the
number of iterations executed. -/
def compressLoopAux (encLen : ℚ → Nat) (maxSizeBytes : ℚ) :
    Nat → ℚ → ℚ × Nat
  | 0, q => (q, 0)
  | fuel + 1, q =>
    if (encLen q : ℚ) > maxSizeBytes ∧ q > 4/10 then
      let rest := compressLoopAux encLen maxSizeBytes fuel (q - 1/10)
      (rest.1, rest.2 + 1)
    else (q, 0)

/-- Constant `MAX_ITERATIONS` (imageUtils.ts line 95). -/
def MAX_ITERATIONS : Nat := 5

/-- The compression quality loop started at the configured initial quality
(default `0.85`), with the full iteration budget. -/
def compressQualityLoop (encLen : ℚ → Nat) (maxSizeBytes : ℚ) (quality : ℚ) :
    ℚ × Nat :=
  compressLoopAux encLen maxSizeBytes MAX_ITERATIONS quality

/-- The value `maxSizeBytes` as computed on line 93 from `opts.maxSizeKB`. -/
def maxSizeBytesOf (maxSizeKB : ℚ) : ℚ := maxSizeKB * 1024 * 4 / 3

/-! ### Sharpness metric (imageUtils.ts lines 229-258)

`calculateSharpness` reads the `size × size` RGBA sample, converts it to
grayscale, applies the unrolled Laplacian at every interior pixel of the
flattened buffer, and returns `sqrt(sum / count) / 10`.  The buffer is a
function from flat byte index to byte value. -/

/-- Grayscale conversion of the sampled buffer (lines 235-238):
`gray[i] = 0.299 * data[4i] + 0.587 * data[4i+1] + 0.114 * data[4i+2]`. -/
def grayAt (data : Nat → Nat) (i : Nat) : ℚ :=
  299/1000 * data (4 * i) + 587/1000 * data (4 * i + 1)
    + 114/1000 * data (4 * i + 2)

/-- The interior pixel coordinates `(x, y)` with `1 ≤ x, y ≤ size - 2`,
exactly the ranges of the nested loops on lines 244-245 (named to avoid clashing with the topological interior). -/
def interiorPixels (size : Nat) : Finset (Nat × Nat) :=
  Finset.Ico 1 (size - 1) ×ˢ Finset.Ico 1 (size - 1)

/-- The unrolled Laplacian response of lines 246-250: with
`idx = y * size + x`, the sum
`-g[idx-size-1] - g[idx-size] - g[idx-size+1] - g[idx-1] + 8 g[idx]
 - g[idx+1] - g[idx+size-1] - g[idx+size] - g[idx+size+1]`. -/
def lapUnrolled (gray : Nat → ℚ) (size x y : Nat) : ℚ :=
  let idx := y * size + x
  (-gray (idx - size - 1) - gray (idx - size) - gray (idx - size + 1)
    - gray (idx - 1) + 8 * gray idx - gray (idx + 1)
    - gray (idx + size - 1) - gray (idx + size) - gray (idx + size + 1))

/-- The mean of the squared Laplacian responses over the interior
(lines 241-257, before the square root: `sum / count`).  `count` is the
number of interior pixels, `(size - 2)^2`.  (For `size < 3` the source
divides zero by zero, producing NaN; in `ℚ` the division yields `0`.) -/
def sharpnessMeanSq (data : Nat → Nat) (size : Nat) : ℚ :=
  (∑ p ∈ interiorPixels size, lapUnrolled (grayAt data) size p.1 p.2 ^ 2)
    / (((size - 1 - 1) * (size - 1 - 1) : Nat) : ℚ)

/-- Model of `calculateSharpness` (lines 229-258): `Math.sqrt(sum / count) / 10`. -/
noncomputable def calculateSharpness (data : Nat → Nat) (size : Nat) : ℝ :=
  Real.sqrt ((sharpnessMeanSq data size : ℚ) : ℝ) / 10

/-- The 3×3 Laplacian matrix named by the spec,
`[[0,-1,0],[-1,8,-1],[0,-1,0]]`, indexed by row `ky` and column `kx` in
`0..2`. -/
def specLaplacianMatrix (ky kx : Nat) : ℚ :=
  [[0, -1, 0], [-1, 8, -1], [0, -1, 0]].getD ky [] |>.getD kx 0

/-- The eight-connected Laplacian matrix the source actually applies,
`[[-1,-1,-1],[-1,8,-1],[-1,-1,-1]]`. -/
def eightLaplacianMatrix (ky kx : Nat) : ℚ :=
  [[-1, -1, -1], [-1, 8, -1], [-1, -1, -1]].getD ky [] |>.getD kx 0

/-- Kernel response at interior pixel `(x, y)` described the way the spec
words it: the 3×3 matrix applied to the grayscale neighborhood, with the
buffer flattened row-major.  For interior pixels `x, y ≥ 1`, the neighbor
at matrix cell `(ky, kx)` is `(x + kx - 1, y + ky - 1)`. -/
def kernelResponse (k : Nat → Nat → ℚ) (gray : Nat → ℚ) (size x y : Nat) : ℚ :=
  ∑ ky ∈ Finset.range 3, ∑ kx ∈ Finset.range 3,
    k ky kx * gray ((y + ky - 1) * size + (x + kx - 1))

/-- Reference mean-square response for a given kernel matrix, following
the spec sentence: kernel applied to interior pixels, mean of squares. -/
def kernelMeanSq (k : Nat → Nat → ℚ) (data : Nat → Nat) (size : Nat) : ℚ :=
  (∑ p ∈ interiorPixels size, kernelResponse k (grayAt data) size p.1 p.2 ^ 2)
    / (((size - 1 - 1) * (size - 1 - 1) : Nat) : ℚ)

/-- Reference sharpness following the spec words: grayscale, spec
Laplacian kernel `[[0,-1,0],[-1,8,-1],[0,-1,0]]` on interior pixels, RMS,
divided by the normalization constant 10. -/
noncomputable def referenceSharpnessSpec (data : Nat → Nat) (size : Nat) : ℝ :=
  Real.sqrt ((kernelMeanSq specLaplacianMatrix data size : ℚ) : ℝ) / 10

/-- Reference sharpness with the eight-connected Laplacian
`[[-1,-1,-1],[-1,8,-1],[-1,-1,-1]]`, otherwise following the same spec
sentence. -/
noncomputable def referenceSharpnessEight (data : Nat → Nat) (size : Nat) : ℝ :=
  Real.sqrt ((kernelMeanSq eightLaplacianMatrix data size : ℚ) : ℝ) / 10

/-! ### Sharpening filter (imageUtils.ts lines 359-407) -/

/-- An `ImageData`-like value: dimensions plus the flat RGBA byte buffer,
as a function from flat byte index to byte value (indices at or beyond
`4 * width * height` read as 0, like an out-of-range typed-array read
coerced to a number). -/
structure JsImageData where
  width : Nat
  height : Nat
  data : Nat → Nat

/-- The kernel array of lines 365-369, `[0,-0.5,0,-0.5,3,-0.5,0,-0.5,0]`,
indexed by `(ky + 1) * 3 + (kx + 1)`. -/
def sharpenKernel (j : Nat) : ℚ :=
  [0, -1/2, 0, -1/2, 3, -1/2, 0, -1/2, 0].getD j 0

/-- The convolution sum of lines 374-380 at pixel `(x, y)` and channel `c`:
`sum += data[((y+ky)*width + (x+kx))*4 + c] * kernel[(ky+1)*3 + (kx+1)]`
for `ky, kx` ranging over `-1..1`. -/
def convSum (img : JsImageData) (x y c : Nat) : ℚ :=
  ∑ ky ∈ Finset.range 3, ∑ kx ∈ Finset.range 3,
    (img.data (((y + ky - 1) * img.width + (x + kx - 1)) * 4 + c) : ℚ)
      * sharpenKernel (ky * 3 + kx)

/-- The clamp `Math.max(0, Math.min(255, Math.round(sum)))` of line 382. -/
def clamp255 (z : ℤ) : Nat := (max 0 (min 255 z)).toNat

/-- Model of `applySharpenFilter` (lines 359-399).  The source fills a zeroed output
buffer: interior pixels get the clamped convolution on channels 0-2 and
alpha 255 (lines 371-386), then the four border rows/columns are copied
verbatim from the source, all four channels (lines 388-396).  The write
sets are disjoint and cover every in-bounds pixel, so the output buffer is
the function below. -/
def applySharpenFilter (img : JsImageData) : JsImageData :=
  { width := img.width
    height := img.height
    data := fun i =>
      let p := i / 4
      let c := i % 4
      let x := p % img.width
      let y := p / img.width
      if p < img.width * img.height then
        if 1 ≤ x ∧ x + 1 < img.width ∧ 1 ≤ y ∧ y + 1 < img.height then
          if c < 3 then clamp255 (jsRound (convSum img x y c)) else 255
        else img.data i
      else 0 }

/-- The unsharp response exactly as the spec words it: center weight 3,
four-connected neighbors weight −0.5, corners 0, applied per channel. -/
def specUnsharpResponse (img : JsImageData) (x y c : Nat) : ℚ :=
  3 * img.data ((y * img.width + x) * 4 + c)
    - 1/2 * img.data ((y * img.width + (x - 1)) * 4 + c)
    - 1/2 * img.data ((y * img.width + (x + 1)) * 4 + c)
    - 1/2 * img.data (((y - 1) * img.width + x) * 4 + c)
    - 1/2 * img.data (((y + 1) * img.width + x) * 4 + c)

/-- A 3×3 sampled RGBA buffer whose only nonzero byte is the three color
channels of the top-left pixel, each 100 (so its luma is exactly 100):
used to separate the two Laplacian kernels. -/
def cornerPixelBuffer : Nat → Nat := fun i => if i < 3 then 100 else 0

/-- A 3×3 image whose only nonzero byte is the alpha channel of the
top-left (border) pixel, with value 7: used to exercise the border-copy
path of the sharpening filter. -/
def borderAlphaImage : JsImageData :=
  { width := 3, height := 3, data := fun i => if i = 3 then 7 else 0 }

/-- The score as the spec words it: 100 minus the fixed penalties of the
triggered rules (−25 too dark, −20 overexposed, −20 low contrast, −30
blurry, −15 low resolution), clamped to [0, 100], with every rule
evaluated on its own condition. -/
def qualityScoreSpec (brightness contrast sharpness : ℚ)
    (imgWidth imgHeight : Nat) : ℤ :=
  max 0 (min 100 (100 -
    ((if brightness < MIN_BRIGHTNESS then (25 : ℤ) else 0)
      + (if brightness > MAX_BRIGHTNESS then 20 else 0)
      + (if contrast < MIN_CONTRAST then 20 else 0)
      + (if sharpness < MIN_SHARPNESS then 30 else 0)
      + (if imgWidth < 400 ∨ imgHeight < 400 then 15 else 0))))

/-- C6: every quality report has its score in [0, 100], `isValid` is
exactly `score ≥ 40`, and the score equals 100 minus the fixed penalties
of the triggered rules, clamped to [0, 100]. -/
theorem qualityReportScore (b c s : ℚ) (w h : Nat) :
    0 ≤ (analyzeImageQualityCore b c s w h).score
    ∧ (analyzeImageQualityCore b c s w h).score ≤ 100
    ∧ (analyzeImageQualityCore b c s w h).isValid
      = decide ((analyzeImageQualityCore b c s w h).score ≥ 40)
    ∧ (analyzeImageQualityCore b c s w h).score = qualityScoreSpec b c s w h := by
  simp only [analyzeImageQualityCore, qualityScoreSpec, MIN_QUALITY_SCORE,
    MIN_BRIGHTNESS, MAX_BRIGHTNESS, MIN_CONTRAST, MIN_SHARPNESS]
  split_ifs <;> first
    | (exfalso; linarith)
    | decide

/-- C10 (implicit claim): the too-dark and overexposed penalties come from
mutually exclusive branches, so the total penalty never exceeds
25 + 20 + 30 + 15 = 90; the score of every report is at least 10 (the clamp
floor at 0 is unreachable through penalties), and the issues list never
contains more than one brightness-related entry. -/
theorem qualityScoreFloor (b c s : ℚ) (w h : Nat) :
    10 ≤ (analyzeImageQualityCore b c s w h).score
    ∧ (analyzeImageQualityCore b c s w h).score ≤ 100
    ∧ ¬("Image is too dark" ∈ (analyzeImageQualityCore b c s w h).issues
        ∧ "Image is overexposed" ∈ (analyzeImageQualityCore b c s w h).issues)
    ∧ (analyzeImageQualityCore b c s w h).issues.countP
        (fun t => t == "Image is too dark" || t == "Image is overexposed") ≤ 1 := by
  simp only [analyzeImageQualityCore,
    MIN_BRIGHTNESS, MAX_BRIGHTNESS, MIN_CONTRAST, MIN_SHARPNESS]
  split_ifs <;> first
    | (exfalso; linarith)
    | decide

/-- C6, witness: the quality-gate facts evaluated at a too-dark but
otherwise fine image (brightness 20, contrast 50, sharpness 50,
500×500). -/
theorem qualityReportScoreApplied :
    (analyzeImageQualityCore 20 50 50 500 500).score = qualityScoreSpec 20 50 50 500 500
    ∧ (analyzeImageQualityCore 20 50 50 500 500).isValid
      = decide ((analyzeImageQualityCore 20 50 50 500 500).score ≥ 40)
    ∧ (analyzeImageQualityCore 20 50 50 500 500).score = 75 := by
  have h := qualityReportScore 20 50 50 500 500
  refine ⟨h.2.2.2, h.2.2.1, ?_⟩
  rw [h.2.2.2]
  norm_num [qualityScoreSpec, MIN_BRIGHTNESS, MAX_BRIGHTNESS, MIN_CONTRAST,
    MIN_SHARPNESS]

/-- C10, witness: the floor facts evaluated at the same too-dark image. -/
theorem qualityScoreFloorApplied :
    10 ≤ (analyzeImageQualityCore 20 50 50 500 500).score
    ∧ (analyzeImageQualityCore 20 50 50 500 500).issues.countP
        (fun t => t == "Image is too dark" || t == "Image is overexposed") ≤ 1 := by
  have h := qualityScoreFloor 20 50 50 500 500
  exact ⟨h.1, h.2.2.2⟩

/-- C8, counterexample: from the default initial quality 0.85 against an
encoder that never fits the byte budget, the loop runs its full 5
iterations and the final encode is performed at quality 0.35, strictly
below the 0.4 floor the claim asserts. -/
theorem compressionQualityBelowFloor :
    (compressQualityLoop (fun _ => 2000000) (maxSizeBytesOf 800) (85/100)).1 = 35/100
    ∧ (compressQualityLoop (fun _ => 2000000) (maxSizeBytesOf 800) (85/100)).2 = 5
    ∧ (35/100 : ℚ) < 4/10 := by
  refine ⟨?_, ?_, by norm_num⟩ <;>
    norm_num [compressQualityLoop, compressLoopAux, MAX_ITERATIONS, maxSizeBytesOf]

/-- Behavior of the bounded quality-reduction loop, for any encoder, byte
budget, remaining fuel and current quality: the iteration count is
bounded by the fuel, each iteration lowers quality by exactly 0.1, the
quality used for the final encode stays above 0.3 whenever at least one
iteration ran (the guard admits qualities down to just above 0.4 and then
subtracts 0.1 once more), and if the loop stopped with fuel to spare then
its guard failed at the final state. -/
theorem compressLoopAux_spec (encLen : ℚ → Nat) (maxB : ℚ) :
    ∀ (fuel : Nat) (q : ℚ),
      (compressLoopAux encLen maxB fuel q).2 ≤ fuel
      ∧ (compressLoopAux encLen maxB fuel q).1
        = q - (compressLoopAux encLen maxB fuel q).2 / 10
      ∧ (0 < (compressLoopAux encLen maxB fuel q).2 →
          3/10 < (compressLoopAux encLen maxB fuel q).1)
      ∧ ((compressLoopAux encLen maxB fuel q).2 < fuel →
          ¬((encLen (compressLoopAux encLen maxB fuel q).1 : ℚ) > maxB
            ∧ (compressLoopAux encLen maxB fuel q).1 > 4/10)) := by
  intro fuel
  induction fuel with
  | zero =>
    intro q
    refine ⟨Nat.le_refl 0, by norm_num [compressLoopAux], ?_, ?_⟩
    · intro h; exact absurd h (by norm_num [compressLoopAux])
    · intro h; exact absurd h (by norm_num [compressLoopAux])
  | succ f ih =>
    intro q
    by_cases hcond : (encLen q : ℚ) > maxB ∧ q > 4/10
    · have ihq := ih (q - 1/10)
      simp only [compressLoopAux, if_pos hcond]
      refine ⟨by omega, ?_, ?_, ?_⟩
      · rw [ihq.2.1]
        push_cast
        ring
      · intro _
        rcases Nat.eq_zero_or_pos (compressLoopAux encLen maxB f (q - 1/10)).2 with h0 | hpos
        · rw [ihq.2.1, h0]
          push_cast
          linarith [hcond.2]
        · exact ihq.2.2.1 hpos
      · intro hlt
        exact ihq.2.2.2 (by omega)
    · simp only [compressLoopAux, if_neg hcond]
      refine ⟨Nat.zero_le _, by norm_num, ?_, fun _ => hcond⟩
      intro h
      exact absurd h (by norm_num)

/-- C8 (amended): the quality-reduction loop lowers quality by the fixed
step 0.1 per iteration and terminates after at most 5 iterations,
re-checking before each iteration that the encoded size still exceeds the
byte budget, that quality is still above 0.4, and that fewer than 5
iterations have run; the quality used for the final encode can end one
step below the 0.4 floor (for example 0.35 from the default 0.85) but
always stays above 0.3 when the loop ran at all. -/
theorem compressionLoopBounds (encLen : ℚ → Nat) (maxB q0 : ℚ) :
    (compressQualityLoop encLen maxB q0).2 ≤ MAX_ITERATIONS
    ∧ (compressQualityLoop encLen maxB q0).1
      = q0 - (compressQualityLoop encLen maxB q0).2 / 10
    ∧ (0 < (compressQualityLoop encLen maxB q0).2 →
        3/10 < (compressQualityLoop encLen maxB q0).1)
    ∧ ((compressQualityLoop encLen maxB q0).2 < MAX_ITERATIONS →
        ¬((encLen (compressQualityLoop encLen maxB q0).1 : ℚ) > maxB
          ∧ (compressQualityLoop encLen maxB q0).1 > 4/10)) :=
  compressLoopAux_spec encLen maxB MAX_ITERATIONS q0

/-- C8, witness: the loop bounds evaluated at the default configuration
against an oversized encoder. -/
theorem compressionLoopBoundsApplied :
    (compressQualityLoop (fun _ => 2000000) (maxSizeBytesOf 800) (85/100)).2
      ≤ MAX_ITERATIONS
    ∧ (compressQualityLoop (fun _ => 2000000) (maxSizeBytesOf 800) (85/100)).1
      = 85/100 - (compressQualityLoop (fun _ => 2000000) (maxSizeBytesOf 800) (85/100)).2 / 10
    ∧ 3/10 < (compressQualityLoop (fun _ => 2000000) (maxSizeBytesOf 800) (85/100)).1 := by
  have h := compressionLoopBounds (fun _ => 2000000) (maxSizeBytesOf 800) (85/100)
  refine ⟨h.1, h.2.1, h.2.2.1 ?_⟩
  norm_num [compressQualityLoop, compressLoopAux, MAX_ITERATIONS, maxSizeBytesOf]

/-- The unrolled Laplacian of the source equals the eight-connected matrix
kernel applied at the shifted interior coordinates. -/
theorem kernelResponse_eight_shifted (gray : Nat → ℚ) (size a b : Nat) :
    kernelResponse eightLaplacianMatrix gray size (a + 1) (b + 1)
      = lapUnrolled gray size (a + 1) (b + 1) := by
  have h1 : (b + 1) * size = b * size + size := by ring
  have h2 : (b + 2) * size = b * size + size + size := by ring
  simp only [kernelResponse, lapUnrolled, Finset.sum_range_succ, Finset.sum_range_zero]
  norm_num [eightLaplacianMatrix]
  rw [show (b+1)*size + (a+1) - size - 1 = b*size + a from by omega,
    show (b+1)*size + (a+1) - size = b*size + (a+1) from by omega,
    show b*size + (a+1) + 1 = b*size + (a+2) from by omega,
    show (b+1)*size + (a+1) + size - 1 = (b+2)*size + a from by omega,
    show (b+1)*size + (a+1) + size = (b+2)*size + (a+1) from by omega,
    show (b+2)*size + (a+1) + 1 = (b+2)*size + (a+2) from by omega,
    show (b+1)*size + (a+1) + 1 = (b+1)*size + (a+2) from by omega]
  ring

/-- The mean-square Laplacian response computed by the source equals the
reference mean square for the eight-connected kernel. -/
theorem kernelMeanSq_eight_eq (data : Nat → Nat) (size : Nat) :
    kernelMeanSq eightLaplacianMatrix data size = sharpnessMeanSq data size := by
  unfold kernelMeanSq sharpnessMeanSq
  congr 1
  refine Finset.sum_congr rfl fun p hp => ?_
  simp only [interiorPixels, Finset.mem_product, Finset.mem_Ico] at hp
  obtain ⟨⟨hx1, _⟩, hy1, _⟩ := hp
  obtain ⟨a, ha⟩ := Nat.exists_eq_add_of_le hx1
  obtain ⟨b, hb⟩ := Nat.exists_eq_add_of_le hy1
  rw [ha, hb, Nat.add_comm 1 a, Nat.add_comm 1 b, kernelResponse_eight_shifted]

/-- C7, counterexample: on the corner-pixel buffer the source sharpness is
10 (the corner neighbor contributes through the −1 corner weight), while
the four-connected kernel of the spec `[[0,-1,0],[-1,8,-1],[0,-1,0]]` gives 0
— so `calculateSharpness` does not equal the reference
definition. -/
theorem sharpnessSpecKernelCounterexample :
    calculateSharpness cornerPixelBuffer 3 = 10
    ∧ referenceSharpnessSpec cornerPixelBuffer 3 = 0
    ∧ calculateSharpness cornerPixelBuffer 3 ≠ referenceSharpnessSpec cornerPixelBuffer 3 := by
  have h1 : sharpnessMeanSq cornerPixelBuffer 3 = 10000 := by
    norm_num [sharpnessMeanSq, interiorPixels, lapUnrolled, grayAt, cornerPixelBuffer,
      Finset.sum_product, show (3:Nat) - 1 = 2 from rfl, Nat.Ico_succ_right,
      Finset.Icc_self, Finset.sum_singleton]
  have h2 : kernelMeanSq specLaplacianMatrix cornerPixelBuffer 3 = 0 := by
    norm_num [kernelMeanSq, interiorPixels, kernelResponse, grayAt, cornerPixelBuffer,
      Finset.sum_product, show (3:Nat) - 1 = 2 from rfl, Nat.Ico_succ_right,
      Finset.Icc_self, Finset.sum_singleton, Finset.sum_range_succ,
      specLaplacianMatrix]
  have e1 : calculateSharpness cornerPixelBuffer 3 = 10 := by
    unfold calculateSharpness
    rw [h1]
    rw [show (((10000 : ℚ) : ℝ)) = 100 ^ 2 from by norm_num]
    rw [Real.sqrt_sq (by norm_num : (0:ℝ) ≤ 100)]
    norm_num
  have e2 : referenceSharpnessSpec cornerPixelBuffer 3 = 0 := by
    unfold referenceSharpnessSpec
    rw [h2]
    rw [show (((0 : ℚ) : ℝ)) = 0 from by norm_num, Real.sqrt_zero]
    norm_num
  exact ⟨e1, e2, by rw [e1, e2]; norm_num⟩

/-- C7 (amended): `calculateSharpness` equals the reference definition —
grayscale conversion, discrete Laplacian on interior pixels, RMS, divided
by 10 — for the eight-connected Laplacian kernel
`[[-1,-1,-1],[-1,8,-1],[-1,-1,-1]]` (the four-connected
`[[0,-1,0],[-1,8,-1],[0,-1,0]]` does not match the source, which also
subtracts the four corner neighbors). -/
theorem calculateSharpnessEightKernel (data : Nat → Nat) (size : Nat) :
    calculateSharpness data size = referenceSharpnessEight data size := by
  unfold calculateSharpness referenceSharpnessEight
  rw [kernelMeanSq_eight_eq]

/-- C7, witness: the kernel equivalence evaluated at the corner-pixel
buffer. -/
theorem calculateSharpnessEightKernelApplied :
    calculateSharpness cornerPixelBuffer 3 = referenceSharpnessEight cornerPixelBuffer 3 :=
  calculateSharpnessEightKernel cornerPixelBuffer 3

/-- The source convolution sum at shifted interior coordinates equals the
center-3 / four-neighbor −0.5 response of the spec. -/
theorem convSum_shifted (img : JsImageData) (a b c : Nat) :
    convSum img (a + 1) (b + 1) c = specUnsharpResponse img (a + 1) (b + 1) c := by
  simp only [convSum, specUnsharpResponse, Finset.sum_range_succ, Finset.sum_range_zero]
  norm_num [sharpenKernel]
  ring

/-- The source convolution sum equals the spec response at every pixel off
the left and top border. -/
theorem convSum_spec (img : JsImageData) (x y c : Nat) (hx : 1 ≤ x) (hy : 1 ≤ y) :
    convSum img x y c = specUnsharpResponse img x y c := by
  obtain ⟨a, rfl⟩ := Nat.exists_eq_add_of_le hx
  obtain ⟨b, rfl⟩ := Nat.exists_eq_add_of_le hy
  rw [Nat.add_comm 1 a, Nat.add_comm 1 b]
  exact convSum_shifted img a b c

/-- C9, counterexample: on a 3×3 image whose top-left border pixel has
alpha 7, the sharpened output keeps alpha 7 at that pixel (border pixels
are copied verbatim, alpha included), so the output alpha channel is not
fully opaque at every pixel as the claim asserts. -/
theorem sharpenFilterBorderAlphaNotOpaque :
    (applySharpenFilter borderAlphaImage).data 3 = 7 ∧ (7 : Nat) ≠ 255 :=
  ⟨rfl, by decide⟩

/-- C9 (amended): the sharpening filter preserves dimensions; interior
color channels are the clamped, rounded response of the 3×3 unsharp
kernel (center 3, four-connected neighbors −0.5, corners 0) and interior
alpha is forced to 255; border pixels are copied unchanged from the
source on all four channels, alpha included — so output alpha is 255 at
every interior pixel but follows the source on the border. -/
theorem sharpenFilterSpec (img : JsImageData) :
    (applySharpenFilter img).width = img.width
    ∧ (applySharpenFilter img).height = img.height
    ∧ (∀ x y c : Nat, 1 ≤ x → x + 1 < img.width → 1 ≤ y → y + 1 < img.height →
        (c < 3 → (applySharpenFilter img).data ((y * img.width + x) * 4 + c)
          = clamp255 (jsRound (specUnsharpResponse img x y c)))
        ∧ (applySharpenFilter img).data ((y * img.width + x) * 4 + 3) = 255)
    ∧ (∀ x y c : Nat, x < img.width → y < img.height → c < 4 →
        (x = 0 ∨ x + 1 = img.width ∨ y = 0 ∨ y + 1 = img.height) →
        (applySharpenFilter img).data ((y * img.width + x) * 4 + c)
          = img.data ((y * img.width + x) * 4 + c)) := by
  have hdiv : ∀ p c : Nat, c < 4 → (p * 4 + c) / 4 = p := by intro p c hc; omega
  have hmod : ∀ p c : Nat, c < 4 → (p * 4 + c) % 4 = c := by intro p c hc; omega
  have hxy : ∀ x y : Nat, x < img.width →
      (y * img.width + x) % img.width = x ∧ (y * img.width + x) / img.width = y := by
    intro x y hx
    have hw : 0 < img.width := by omega
    constructor
    · rw [Nat.add_comm, Nat.add_mul_mod_self_right, Nat.mod_eq_of_lt hx]
    · rw [Nat.add_comm, Nat.add_mul_div_right _ _ hw, Nat.div_eq_of_lt hx]
      omega
  have hbound : ∀ x y : Nat, x < img.width → y < img.height →
      y * img.width + x < img.width * img.height := by
    intro x y hx hy
    have h1 : (y + 1) * img.width ≤ img.height * img.width :=
      Nat.mul_le_mul_right _ (by omega)
    have h2 : (y + 1) * img.width = y * img.width + img.width := by ring
    have h3 : img.height * img.width = img.width * img.height := Nat.mul_comm _ _
    omega
  refine ⟨rfl, rfl, ?_, ?_⟩
  · intro x y c hx hxw hy hyh
    have hxlt : x < img.width := by omega
    have hylt : y < img.height := by omega
    constructor
    · intro hc
      simp only [applySharpenFilter]
      rw [hdiv _ c (by omega), hmod _ c (by omega),
        (hxy x y hxlt).1, (hxy x y hxlt).2,
        if_pos (hbound x y hxlt hylt), if_pos ⟨hx, hxw, hy, hyh⟩, if_pos hc,
        convSum_spec img x y c hx hy]
    · simp only [applySharpenFilter]
      rw [hdiv _ 3 (by omega), hmod _ 3 (by omega),
        (hxy x y hxlt).1, (hxy x y hxlt).2,
        if_pos (hbound x y hxlt hylt), if_pos ⟨hx, hxw, hy, hyh⟩, if_neg (by omega)]
  · intro x y c hx hy hc hb
    simp only [applySharpenFilter]
    rw [hdiv _ c hc, hmod _ c hc, (hxy x y hx).1, (hxy x y hx).2,
      if_pos (hbound x y hx hy), if_neg (by omega)]

/-- C9, witness: the sharpened 3×3 test image has the kernel response at
its center color channel, alpha 255 at the center, and the source bytes
(including the non-opaque alpha) on the border pixel. -/
theorem sharpenFilterSpecApplied :
    (applySharpenFilter borderAlphaImage).data ((1 * 3 + 1) * 4 + 0)
      = clamp255 (jsRound (specUnsharpResponse borderAlphaImage 1 1 0))
    ∧ (applySharpenFilter borderAlphaImage).data ((1 * 3 + 1) * 4 + 3) = 255
    ∧ (applySharpenFilter borderAlphaImage).data ((0 * 3 + 0) * 4 + 3)
      = borderAlphaImage.data ((0 * 3 + 0) * 4 + 3) := by
  have h := sharpenFilterSpec borderAlphaImage
  have hint := h.2.2.1 1 1 0 (by decide) (by decide) (by decide) (by decide)
  have hbord := h.2.2.2 0 0 3 (by decide) (by decide) (by decide) (Or.inl rfl)
  exact ⟨hint.1 (by decide), hint.2, hbord⟩

end ImageUtils

namespace DetectDisease

/-- C1, counterexample: for a classifier response with `confidence = 55`
and `expert_consultation` explicitly `false`, the validated output keeps
`expert_consultation = false` (the claim asserts it would be forced to
`true`). -/
theorem validatorKeepsExplicitExpertFlag :
    (parseAndValidateResponse rawLowConfidence "2024-01-01T00:00:00.000Z").confidence = 55
    ∧ (parseAndValidateResponse rawLowConfidence "2024-01-01T00:00:00.000Z").expert_consultation
      = false :=
  ⟨rfl, rfl⟩

/-- C1 (amended): the validator derives `expert_consultation` from the
confidence threshold of 70 only when the classifier did not supply a
boolean value; a classifier-supplied boolean is preserved verbatim. -/
theorem expertConsultationDerivation (raw : RawDetection) (ts : String) :
    (raw.expert_consultation = none →
      (parseAndValidateResponse raw ts).expert_consultation
        = decide ((parseAndValidateResponse raw ts).confidence < CONFIDENCE_MEDIUM))
    ∧ ∀ b : Bool, raw.expert_consultation = some b →
      (parseAndValidateResponse raw ts).expert_consultation = b := by
  constructor
  · intro h
    simp [parseAndValidateResponse, h]
  · intro b h
    simp [parseAndValidateResponse, h]

/-- C1, witness for the amended theorem: at confidence 55 with no
classifier-supplied boolean, the validator sets
`expert_consultation = true`. -/
theorem expertConsultationDerivationApplied :
    (parseAndValidateResponse rawLowConfidenceNoFlag "2024-01-01T00:00:00.000Z").expert_consultation
      = true := by
  have h :=
    (expertConsultationDerivation rawLowConfidenceNoFlag "2024-01-01T00:00:00.000Z").1 rfl
  rw [h]
  decide

/-- C2, counterexample: the synthesized fallback result has
`severity = "Unknown"`, which is not drawn from `Low | Medium | High` as
the claim asserts. -/
theorem fallbackSeverityOutsideEnum :
    (createFallbackResponse "Could not parse AI response" "2024-01-01T00:00:00.000Z").severity
      = "Unknown"
    ∧ ¬((createFallbackResponse "Could not parse AI response" "2024-01-01T00:00:00.000Z").severity
          = "Low"
        ∨ (createFallbackResponse "Could not parse AI response" "2024-01-01T00:00:00.000Z").severity
          = "Medium"
        ∨ (createFallbackResponse "Could not parse AI response" "2024-01-01T00:00:00.000Z").severity
          = "High") := by
  refine ⟨rfl, ?_⟩
  decide

/-- C2 (amended): on unparseable classifier text the pipeline returns the
synthesized fallback result, and that fallback satisfies the §3
invariants except the severity enumeration: `confidence = 0` (within
`[0, 99]`), `category = "unknown"`, `expert_consultation = true`, every
multilingual field carries a non-empty English entry — but
`severity = "Unknown"`, not one of `Low | Medium | High`. -/
theorem fallbackResultInvariants (ts : String) :
    validateOrFallback none ts
      = createFallbackResponse "Could not parse AI response" ts
    ∧ (createFallbackResponse "Could not parse AI response" ts).confidence = 0
    ∧ 0 ≤ (createFallbackResponse "Could not parse AI response" ts).confidence
    ∧ (createFallbackResponse "Could not parse AI response" ts).confidence ≤ 99
    ∧ (createFallbackResponse "Could not parse AI response" ts).category = "unknown"
    ∧ (createFallbackResponse "Could not parse AI response" ts).expert_consultation = true
    ∧ (createFallbackResponse "Could not parse AI response" ts).severity = "Unknown"
    ∧ (createFallbackResponse "Could not parse AI response" ts).description.english ≠ ""
    ∧ (createFallbackResponse "Could not parse AI response" ts).solutions.english ≠ ""
    ∧ (createFallbackResponse "Could not parse AI response" ts).tts.english ≠ "" := by
  refine ⟨rfl, rfl, ?_, ?_, rfl, rfl, rfl, ?_, ?_, ?_⟩ <;>
    (simp only [createFallbackResponse]; decide)

/-- C2, witness: the fallback plumbing and confidence evaluated at a
concrete timestamp. -/
theorem fallbackResultInvariantsApplied :
    validateOrFallback none "2024-01-01T00:00:00.000Z"
      = createFallbackResponse "Could not parse AI response" "2024-01-01T00:00:00.000Z"
    ∧ (createFallbackResponse "Could not parse AI response" "2024-01-01T00:00:00.000Z").confidence
      = 0 := by
  have h := fallbackResultInvariants "2024-01-01T00:00:00.000Z"
  exact ⟨h.1, h.2.1⟩

/-- If every remaining attempt fails with a retryable outcome other than
429/402, the loop exhausts its budget and settles on the fallback. -/
theorem retryLoopAux_fallback (attempts : Nat → AttemptResult) :
    ∀ (remaining attempt : Nat) (lastError : Option String),
      (∀ i, attempt ≤ i → i < attempt + remaining → retryableOther (attempts i)) →
      ((retryLoopAux attempts remaining attempt lastError).2).isFallback = true := by
  intro remaining
  induction remaining with
  | zero => intro attempt lastError _; rfl
  | succ n ih =>
    intro attempt lastError h
    have ha := h attempt (Nat.le_refl _) (by omega)
    have hrest : ∀ i, attempt + 1 ≤ i → i < (attempt + 1) + n →
        retryableOther (attempts i) :=
      fun i h1 h2 => h i (by omega) (by omega)
    rcases ha with h1 | ⟨m, h1⟩ | ⟨s, h1, hs429, hs402⟩
    · simp only [retryLoopAux, h1]
      exact ih (attempt + 1) _ hrest
    · simp only [retryLoopAux, h1]
      exact ih (attempt + 1) _ hrest
    · simp only [retryLoopAux, h1, if_neg hs429, if_neg hs402]
      exact ih (attempt + 1) _ hrest

/-- C3, counterexample: an upstream that answers 429 on every attempt makes
the orchestrator return the `AI_RATE_LIMITED` error response with HTTP
status 429, not a fallback result — the claim asserts a Fallback Result
for every retryable failure class including upstream 429. -/
theorem rateLimitedErrorAfter429Exhaustion :
    (retryLoop (fun _ => AttemptResult.httpStatus 429)).2
      = ServeOutcome.errorResponse 429 "AI_RATE_LIMITED"
    ∧ ((retryLoop (fun _ => AttemptResult.httpStatus 429)).2).isFallback = false :=
  ⟨rfl, rfl⟩

/-- C3 (amended): when every attempt ends in a retryable failure other than
upstream 429 (transport error, timeout, or a non-ok status that is
neither 429 nor 402), exhausting the retry budget settles on the fallback
result, returned with HTTP 200; upstream 429 on the final attempt instead
produces a 429 error response (see the counterexample). -/
theorem retryExhaustionFallback (attempts : Nat → AttemptResult)
    (h : ∀ i, i ≤ MAX_RETRIES → retryableOther (attempts i)) :
    ((retryLoop attempts).2).isFallback = true :=
  retryLoopAux_fallback attempts (MAX_RETRIES + 1) 0 none
    (fun i _ h2 => h i (by omega))

/-- C3, witness: all attempts failing with a transport error settle on the
fallback. -/
theorem retryExhaustionFallbackApplied :
    ((retryLoop (fun _ => AttemptResult.transportError "connection reset")).2).isFallback
      = true :=
  retryExhaustionFallback (fun _ => AttemptResult.transportError "connection reset")
    (fun _ _ => Or.inr (Or.inl ⟨"connection reset", rfl⟩))

/-- C4: against an upstream that always times out, the loop makes exactly
`1 + MAX_RETRIES = 3` call attempts, each issued with the 45000 ms
per-attempt timeout, awaiting a backoff of `RETRY_DELAY_MS * attempt`
before each retry, and settles on the timeout fallback, whose synthesized
detection result has confidence 0. -/
theorem timeoutOrchestration (attempts : Nat → AttemptResult)
    (h : ∀ i, attempts i = AttemptResult.timeout) (ts : String) :
    retryLoop attempts
      = ([⟨0, REQUEST_TIMEOUT_MS⟩,
          ⟨RETRY_DELAY_MS * 1, REQUEST_TIMEOUT_MS⟩,
          ⟨RETRY_DELAY_MS * 2, REQUEST_TIMEOUT_MS⟩],
         ServeOutcome.fallback "Request timed out")
    ∧ (retryLoop attempts).1.length = 1 + MAX_RETRIES
    ∧ (createFallbackResponse "Request timed out" ts).confidence = 0 := by
  have e : retryLoop attempts
      = ([⟨0, REQUEST_TIMEOUT_MS⟩,
          ⟨RETRY_DELAY_MS * 1, REQUEST_TIMEOUT_MS⟩,
          ⟨RETRY_DELAY_MS * 2, REQUEST_TIMEOUT_MS⟩],
         ServeOutcome.fallback "Request timed out") := by
    simp [retryLoop, retryLoopAux, h]
  refine ⟨e, ?_, rfl⟩
  rw [e]
  rfl

/-- C4, witness: the orchestration facts at the concrete always-timeout
upstream. -/
theorem timeoutOrchestrationApplied :
    (retryLoop (fun _ => AttemptResult.timeout)).2
      = ServeOutcome.fallback "Request timed out"
    ∧ (retryLoop (fun _ => AttemptResult.timeout)).1.length = 1 + MAX_RETRIES := by
  have h := timeoutOrchestration (fun _ => AttemptResult.timeout) (fun _ => rfl) "t"
  exact ⟨by rw [h.1], h.2.1⟩

/-- Within a window (no request time past the reset time of the record), the
sequence of admission decisions for a record with count `c` is
`decide (c + i < RATE_LIMIT)` at the `i`-th subsequent check, and a
rejected check leaves the record unchanged. -/
theorem runChecks_getD_inWindow :
    ∀ (ts : List Nat) (r : RateLimitRecord),
      (∀ t ∈ ts, t ≤ r.resetTime) →
      ∀ i, i < ts.length →
        (runChecks ts (some r)).1.getD i false
          = decide (r.count + i < RATE_LIMIT) := by
  intro ts
  induction ts with
  | nil => intro r _ i hi; simp at hi
  | cons t rest ih =>
    intro r h i hi
    have ht : t ≤ r.resetTime := h t (by simp)
    have hnot : ¬ t > r.resetTime := by omega
    have hrest : ∀ t' ∈ rest, t' ≤ r.resetTime := fun t' ht' => h t' (by simp [ht'])
    by_cases hc : r.count ≥ RATE_LIMIT
    · simp only [runChecks, checkRateLimit, if_neg hnot, if_pos hc]
      cases i with
      | zero =>
        simp only [List.getD_cons_zero]
        symm
        simp only [RATE_LIMIT] at hc ⊢
        simp only [decide_eq_false_iff_not]
        omega
      | succ j =>
        simp only [List.getD_cons_succ]
        rw [ih r hrest j (by simpa using hi)]
        rw [decide_eq_decide]
        simp only [RATE_LIMIT] at hc ⊢
        omega
    · simp only [runChecks, checkRateLimit, if_neg hnot, if_neg hc]
      cases i with
      | zero =>
        simp only [List.getD_cons_zero]
        symm
        simp only [RATE_LIMIT] at hc ⊢
        simp only [decide_eq_true_eq]
        omega
      | succ j =>
        simp only [List.getD_cons_succ]
        have hrest1 : ∀ t' ∈ rest, t' ≤ ({ r with count := r.count + 1 } : RateLimitRecord).resetTime :=
          hrest
        rw [ih _ hrest1 j (by simpa using hi)]
        rw [decide_eq_decide]
        dsimp only
        omega

/-- C5: for one caller key, starting from an empty record, the `i`-th check
within a single window instance is admitted exactly when `i < RATE_LIMIT`
(so exactly the first 15 checks succeed and the 16th and later are
rejected); a rejected check does not change the stored record; and the
first check past the stored reset time is admitted and replaces the
record with a fresh one of count 1. -/
theorem rateLimiterWindow :
    (∀ (t0 : Nat) (rest : List Nat),
      (∀ t ∈ rest, t ≤ t0 + RATE_WINDOW_MS) →
      ∀ i, i < rest.length + 1 →
        (runChecks (t0 :: rest) none).1.getD i false = decide (i < RATE_LIMIT))
    ∧ (∀ (now : Nat) (r : RateLimitRecord), ¬ now > r.resetTime →
        r.count ≥ RATE_LIMIT → checkRateLimit now (some r) = (false, some r))
    ∧ (∀ (now : Nat) (r : RateLimitRecord), now > r.resetTime →
        checkRateLimit now (some r)
          = (true, some { count := 1, resetTime := now + RATE_WINDOW_MS })) := by
  refine ⟨?_, ?_, ?_⟩
  · intro t0 rest h i hi
    simp only [runChecks, checkRateLimit]
    cases i with
    | zero =>
      simp only [List.getD_cons_zero]
      symm
      simp only [RATE_LIMIT]
      simp only [decide_eq_true_eq]
      omega
    | succ j =>
      simp only [List.getD_cons_succ]
      have hw : ∀ t' ∈ rest,
          t' ≤ ({ count := 1, resetTime := t0 + RATE_WINDOW_MS } : RateLimitRecord).resetTime :=
        fun t' ht' => h t' ht'
      rw [runChecks_getD_inWindow rest _ hw j (by simpa using hi)]
      rw [decide_eq_decide]
      dsimp only
      omega
  · intro now r hnow hc
    simp only [checkRateLimit, if_neg hnow, if_pos hc]
  · intro now r hnow
    simp only [checkRateLimit, if_pos hnow]

/-- C5, witness: with 16 requests at time 0 the 15th check (index 14) is
admitted and the 16th (index 15) is rejected; a full record rejects
without change; an expired record is replaced by a fresh count-1
record. -/
theorem rateLimiterWindowApplied :
    (runChecks (0 :: List.replicate 15 0) none).1.getD 14 false = true
    ∧ (runChecks (0 :: List.replicate 15 0) none).1.getD 15 false = false
    ∧ checkRateLimit 5 (some ⟨15, 100⟩) = (false, some ⟨15, 100⟩)
    ∧ checkRateLimit 101 (some ⟨15, 100⟩)
      = (true, some ⟨1, 101 + RATE_WINDOW_MS⟩) := by
  have h := rateLimiterWindow
  refine ⟨?_, ?_, ?_, ?_⟩
  · have h14 := h.1 0 (List.replicate 15 0) (by simp) 14 (by simp)
    rw [h14]
    decide
  · have h15 := h.1 0 (List.replicate 15 0) (by simp) 15 (by simp)
    rw [h15]
    decide
  · exact h.2.1 5 ⟨15, 100⟩ (by decide) (by decide)
  · exact h.2.2 101 ⟨15, 100⟩ (by decide)

end DetectDisease
